import Mathlib

/-!
Shallow embedding of the `mcp-template-new` MCP server template.

The embedding follows the TypeScript sources:
* `src/server/mcp-server.ts` (`createMCPServer`): registry construction and
  the call-tool / read-resource dispatch handlers;
* `src/schemas/tool-schemas.ts`: the zod argument schemas for the two tools;
* `src/tools/echo.ts`, `src/tools/get-time.ts`: the example tool handlers;
* `src/resources/info.ts`: the example resource;
* `src/transports/http.ts` (`startHTTPTransport`): the HTTP session router.

JavaScript values that can appear as JSON-RPC `arguments` are modelled by the
inductive `Json`. Exceptions are modelled by `Except String`: a handler that
throws corresponds to `Except.error msg` where `msg` is the thrown Error's
message. The JavaScript `Map` is modelled as an association list with
`Map.set` replace-or-append semantics (`mapSet`) and `Map.get` lookup
(`mapGet`).
-/

/-- JSON-like JavaScript values (tool arguments, object fields). -/
inductive Json where
  | str : String → Json
  | num : Int → Json
  | bool : Bool → Json
  | null : Json
  | arr : List Json → Json
  | obj : List (String × Json) → Json

/-- Model of `Map.get` on an association list: the value of the first entry with the
given key (keys are unique after `mapSet`-based construction, matching a
JavaScript `Map`). -/
def mapGet {α : Type} : List (String × α) → String → Option α
  | [], _ => none
  | (k₀, v₀) :: rest, k => if k₀ = k then some v₀ else mapGet rest k

/-- Model of `Map.set`: replace the value of an existing entry with this key, else
append a new entry (JavaScript `Map.prototype.set` semantics). -/
def mapSet {α : Type} : List (String × α) → String → α → List (String × α)
  | [], k, v => [(k, v)]
  | (k₀, v₀) :: rest, k, v =>
      if k₀ = k then (k₀, v) :: rest else (k₀, v₀) :: mapSet rest k v

/-- Model of `new Map(entries)`: insert the entries in order, later entries
overwriting earlier ones with the same key. -/
def buildRegistry {α : Type} (entries : List (String × α)) : List (String × α) :=
  entries.foldl (fun m e => mapSet m e.1 e.2) []

/-- One `{ type: "text", text: ... }` content item of a tool result. -/
structure TextContent where
  type : String
  text : String
deriving DecidableEq, Repr

/-- The envelope returned by a tool call. In the TypeScript source a success
result simply omits `isError` (which JavaScript treats as false), so it is
modelled as a `Bool` that is `false` on success. -/
structure CallToolResult where
  content : List TextContent
  isError : Bool
deriving DecidableEq, Repr

/-- One `{ uri, mimeType, text }` item of a read-resource result. -/
structure ResourceContent where
  uri : String
  mimeType : String
  text : String
deriving DecidableEq, Repr

/-- The result of a resource read. -/
structure ReadResourceResult where
  contents : List ResourceContent
deriving DecidableEq, Repr

/-- A tool definition (`src/tools/index.ts`). The static `inputSchema`
metadata is only echoed back by list-tools and is omitted here. A throwing
handler is an `Except.error` carrying the thrown message. -/
structure Tool where
  name : String
  description : String
  handler : Json → Except String CallToolResult

/-- A resource definition (`src/resources/index.ts`). -/
structure Resource where
  uri : String
  name : String
  description : String
  mimeType : String
  handler : String → Except String ReadResourceResult

/-- Model of `EchoToolSchema = z.object({ message: z.string() })` from
`src/schemas/tool-schemas.ts`. zod's `safeParse` on an object schema fails on
a non-object, requires `message` to be present and a string, and strips
(never rejects) unknown keys. -/
def EchoToolSchema.safeParse (args : Json) : Option String :=
  match args with
  | .obj fields =>
      match mapGet fields "message" with
      | some (.str m) => some m
      | _ => none
  | _ => none

/-- Parsed `get_time` arguments: `timezone` is optional. -/
structure GetTimeInput where
  timezone : Option String
deriving DecidableEq, Repr

/-- Model of `GetTimeToolSchema = z.object({ timezone: z.string().optional() })`:
fails on a non-object, accepts a missing `timezone`, requires a string when
present, strips unknown keys. -/
def GetTimeToolSchema.safeParse (args : Json) : Option GetTimeInput :=
  match args with
  | .obj fields =>
      match mapGet fields "timezone" with
      | some (.str t) => some ⟨some t⟩
      | some _ => none
      | none => some ⟨none⟩
  | _ => none

/-- JavaScript `x || d` on the optional parsed `timezone` field: `undefined`
and the empty string are falsy, so both fall back to the default. -/
def jsOrDefault (v : Option String) (d : String) : String :=
  match v with
  | none => d
  | some s => if s.isEmpty then d else s

/-- The `echo` tool (`src/tools/echo.ts`): validates with
`EchoToolSchema.safeParse`, throws `Invalid arguments: ...` on failure, else
returns one text item `Echo: <message>`. The stringified zod error detail is
abstracted as `<zod error>`. -/
def echoTool : Tool :=
  { name := "echo"
    description := "Echo back a message"
    handler := fun args =>
      match EchoToolSchema.safeParse args with
      | none => .error ("Invalid arguments: " ++ "<zod error>")
      | some m => .ok { content := [⟨"text", "Echo: " ++ m⟩], isError := false } }

/-- The `get_time` tool (`src/tools/get-time.ts`). The environment-dependent
`new Date().toLocaleString("en-US", { timeZone: tz, ... })` call is the
parameter `fmt`; it may throw (a `RangeError` on an unsupported timezone),
hence `Except`. The handler computes
`timezone = parsed.data.timezone || "UTC"` and returns one text item
`Current time in <timezone>: <fmt timezone>`. -/
def getTimeTool (fmt : String → Except String String) : Tool :=
  { name := "get_time"
    description := "Get the current time in a specified timezone"
    handler := fun args =>
      match GetTimeToolSchema.safeParse args with
      | none => .error ("Invalid arguments: " ++ "<zod error>")
      | some parsed =>
          let timezone := jsOrDefault parsed.timezone "UTC"
          match fmt timezone with
          | .error e => .error e
          | .ok timeString =>
              .ok { content :=
                      [⟨"text", "Current time in " ++ timezone ++ ": " ++ timeString⟩],
                    isError := false } }

/-- The `mcp://info` resource (`src/resources/info.ts`). -/
def infoResource : Resource :=
  { uri := "mcp://info"
    name := "Server Information"
    description := "Information about this MCP server"
    mimeType := "text/plain"
    handler := fun uri =>
      .ok { contents :=
              [⟨uri, "text/plain",
                "MCP Template Server v1.0.0\n          \nThis is an example MCP server that provides:\n- Time utilities\n- Echo functionality\n- Custom resources\n\nBuilt with the Model Context Protocol SDK."⟩] } }

/-- Model of `const toolRegistry = new Map(tools.map((tool) => [tool.name, tool]))`. -/
def toolRegistry (tools : List Tool) : List (String × Tool) :=
  buildRegistry (tools.map fun t => (t.name, t))

/-- Model of `const resourceRegistry = new Map(resources.map((res) => [res.uri, res]))`. -/
def resourceRegistry (resources : List Resource) : List (String × Resource) :=
  buildRegistry (resources.map fun r => (r.uri, r))

/-- The `CallToolRequestSchema` handler of `createMCPServer`: look the name up
in the tool registry, throw `Unknown tool: <name>` if absent, else run the
handler; any thrown error is caught and converted into an
`isError: true` envelope whose text is `Error: <message>`. The function is
total: no exception escapes to the protocol runtime. -/
def callTool (tools : List Tool) (name : String) (args : Json) : CallToolResult :=
  let attempt : Except String CallToolResult :=
    match mapGet (toolRegistry tools) name with
    | none => .error ("Unknown tool: " ++ name)
    | some tool => tool.handler args
  match attempt with
  | .ok result => result
  | .error msg => { content := [⟨"text", "Error: " ++ msg⟩], isError := true }

/-- The `ReadResourceRequestSchema` handler of `createMCPServer`: look the uri
up in the resource registry, throw `Unknown resource: <uri>` if absent (the
error propagates: there is no catch in this handler), else run the handler. -/
def readResource (resources : List Resource) (uri : String) :
    Except String ReadResourceResult :=
  match mapGet (resourceRegistry resources) uri with
  | none => .error ("Unknown resource: " ++ uri)
  | some r => r.handler uri

/-- The tool list wired in `src/index.ts`: `[getTimeTool, echoTool]`. -/
def templateTools (fmt : String → Except String String) : List Tool :=
  [getTimeTool fmt, echoTool]

/-- The resource list wired in `src/index.ts`: `[infoResource]`. -/
def templateResources : List Resource :=
  [infoResource]

/-- A concrete fixture for the environment-provided time formatter, used in
witnesses and counterexamples. -/
def fmtExample : String → Except String String :=
  fun tz => .ok ("Saturday, October 11, 2026 at 12:00:00 AM " ++ tz)

/-! ## HTTP session router (`src/transports/http.ts`, `startHTTPTransport`)

The router keeps `const transports = new Map<string, Transport>()` — the
SessionTable — and a fresh-session-id source. `randomUUID()` is modelled by
an injective generator driven by a counter (`freshUUID`), capturing the one
property the code relies on: a newly generated id never collides with an
earlier one. The SDK-owned parts of a request are modelled by flags on the
request: whether the body `isInitializeRequest`, whether the SDK fires the
`onsessioninitialized` callback while handling an initialization request
(the handshake completes), and whether `transport.handleRequest` throws. -/

/-- A per-session `StreamableHTTPServerTransport` instance: a numeric
identity (for instance-identity observations) and the `sessionId` the SDK
assigns once the session is initialized. -/
structure Transport where
  id : Nat
  sessionId : Option String
deriving DecidableEq, Repr

/-- The state owned by `startHTTPTransport`: the SessionTable plus the
counter driving fresh session-id generation. -/
structure RouterState where
  transports : List (String × Transport)
  nextId : Nat
deriving DecidableEq, Repr

/-- Model of `randomUUID()`: the n-th generated session id. Any injective,
never-empty generator captures the uniqueness of UUIDs. -/
def freshUUID (n : Nat) : String :=
  String.mk (List.replicate (n + 1) 'u')

/-- An incoming HTTP request to `/mcp`. `sessionId` is the `Mcp-Session-Id`
header; `isInit` is `isInitializeRequest(req.body)`; `handshakeCompletes`
and `handleFails` model the SDK behaviour while the transport handles the
request (see module comment). -/
structure HttpRequest where
  sessionId : Option String
  isInit : Bool
  handshakeCompletes : Bool
  handleFails : Bool
deriving DecidableEq, Repr

/-- The observable response of a route handler. -/
inductive McpResponse where
  /-- Case where `transport.handleRequest(req, res, ...)` was called on the transport
  with this identity; the response body is SDK-produced. -/
  | delegated : Nat → McpResponse
  /-- An HTTP response with a JSON-RPC-shaped error body
  with the jsonrpc 2.0 shape carrying a code, a message and a null id. -/
  | jsonRpcError : Nat → Int → String → McpResponse
  /-- An HTTP response with a plain-text body. -/
  | textError : Nat → String → McpResponse
deriving DecidableEq, Repr

/-- JavaScript truthiness of the header value: reading the header yields a
string or `undefined`, and both `undefined` and `""` are falsy in the
`sessionId && ...` / `!sessionId` tests of every route handler. -/
def sessionHeader (req : HttpRequest) : Option String :=
  match req.sessionId with
  | some s => if s.isEmpty then none else some s
  | none => none

/-- The `app.post("/mcp", ...)` handler. Branches exactly as the source:
reuse when the (truthy) header names a table entry; create a transport when
there is no (truthy) header and the body is an initialization request —
`onsessioninitialized` inserts the new id into the table if the handshake
completes; otherwise respond 400 with JSON-RPC error code -32000. A throwing
`handleRequest` is caught and answered with a 500 JSON-RPC error -32603. -/
def postMcp (s : RouterState) (req : HttpRequest) : McpResponse × RouterState :=
  match sessionHeader req with
  | some sid =>
      match mapGet s.transports sid with
      | some t =>
          if req.handleFails then
            (.jsonRpcError 500 (-32603) "Internal server error", s)
          else
            (.delegated t.id, s)
      | none =>
          (.jsonRpcError 400 (-32000)
            "Bad Request: No valid session ID provided or not an initialization request", s)
  | none =>
      if req.isInit then
        let newSid := freshUUID s.nextId
        let t : Transport :=
          { id := s.nextId
            sessionId := if req.handshakeCompletes then some newSid else none }
        let transports' :=
          if req.handshakeCompletes then s.transports ++ [(newSid, t)]
          else s.transports
        let s' : RouterState := { transports := transports', nextId := s.nextId + 1 }
        if req.handleFails then
          (.jsonRpcError 500 (-32603) "Internal server error", s')
        else
          (.delegated t.id, s')
      else
        (.jsonRpcError 400 (-32000)
          "Bad Request: No valid session ID provided or not an initialization request", s)

/-- The `app.get("/mcp", ...)` handler: 400 unless the (truthy) header names
a table entry, else delegate to that transport. It never mutates the table. -/
def getMcp (s : RouterState) (req : HttpRequest) : McpResponse × RouterState :=
  match sessionHeader req with
  | none => (.textError 400 "Invalid or missing session ID", s)
  | some sid =>
      match mapGet s.transports sid with
      | none => (.textError 400 "Invalid or missing session ID", s)
      | some t => (.delegated t.id, s)

/-- The `app.delete("/mcp", ...)` handler: same 400 rule as GET, then
delegates; a throwing `handleRequest` is caught and answered with a
plain-text 500. It never mutates the table itself (removal happens through
the transport's `onclose` callback). -/
def deleteMcp (s : RouterState) (req : HttpRequest) : McpResponse × RouterState :=
  match sessionHeader req with
  | none => (.textError 400 "Invalid or missing session ID", s)
  | some sid =>
      match mapGet s.transports sid with
      | none => (.textError 400 "Invalid or missing session ID", s)
      | some t =>
          if req.handleFails then
            (.textError 500 "Error processing session termination", s)
          else
            (.delegated t.id, s)

/-- The `transport.onclose` callback: `if (sid && transports.has(sid))
transports.delete(sid)`. `eraseP` removes the (unique) entry with that key. -/
def transportOnclose (s : RouterState) (t : Transport) : RouterState :=
  match t.sessionId with
  | none => s
  | some sid =>
      if !sid.isEmpty && (mapGet s.transports sid).isSome then
        { s with transports := s.transports.eraseP (fun p => p.1 == sid) }
      else
        s

/-- One externally observable event of the router. -/
inductive Event where
  | post : HttpRequest → Event
  | get : HttpRequest → Event
  | del : HttpRequest → Event
  /-- A transport signals closure, firing its `onclose` callback. -/
  | close : Transport → Event
deriving DecidableEq, Repr

/-- The state transition performed by one event. -/
def routerStep (s : RouterState) (e : Event) : RouterState :=
  match e with
  | .post req => (postMcp s req).2
  | .get req => (getMcp s req).2
  | .del req => (deleteMcp s req).2
  | .close t => transportOnclose s t

/-- The state after a sequence of events. -/
def routerRun (s : RouterState) (es : List Event) : RouterState :=
  es.foldl routerStep s

/-- Router state invariant: every SessionTable key was produced by the
session-id generator at some earlier counter value, and keys are distinct. -/
def RouterInv (s : RouterState) : Prop :=
  (∀ kv ∈ s.transports, ∃ m, m < s.nextId ∧ kv.1 = freshUUID m) ∧
    (s.transports.map Prod.fst).Nodup

/-- A request carrying only a session id, as sent by a GET or DELETE. -/
def plainRequest (sid : String) : HttpRequest :=
  { sessionId := some sid, isInit := false, handshakeCompletes := false,
    handleFails := false }

/-- A session id is absent from the table and was generated before the
current counter value: once true, it stays true along every execution. -/
def ClosedOut (sid : String) (s : RouterState) : Prop :=
  mapGet s.transports sid = none ∧ ∃ m, m < s.nextId ∧ sid = freshUUID m

/-! ## Helper lemmas about the map model and the id generator -/

theorem mapGet_eq_none_iff {α : Type} (l : List (String × α)) (k : String) :
    mapGet l k = none ↔ ∀ kv ∈ l, kv.1 ≠ k := by
  induction l with
  | nil => simp [mapGet]
  | cons kv rest ih =>
      obtain ⟨k₀, v₀⟩ := kv
      by_cases h : k₀ = k
      · simp [mapGet, h]
      · simp [mapGet, h, ih]

theorem mapGet_append {α : Type} (l₁ l₂ : List (String × α)) (k : String) :
    mapGet (l₁ ++ l₂) k = (mapGet l₁ k).or (mapGet l₂ k) := by
  induction l₁ with
  | nil => simp [mapGet]
  | cons kv rest ih =>
      obtain ⟨k₀, v₀⟩ := kv
      by_cases h : k₀ = k
      · simp [mapGet, h]
      · simp [mapGet, h, ih]

theorem mapGet_mapSet {α : Type} (m : List (String × α)) (k k' : String) (v : α) :
    mapGet (mapSet m k v) k' = if k = k' then some v else mapGet m k' := by
  induction m with
  | nil => simp [mapSet, mapGet]
  | cons kv rest ih =>
      obtain ⟨k₀, v₀⟩ := kv
      by_cases h : k₀ = k
      · subst h
        by_cases h' : k₀ = k'
        · simp [mapSet, mapGet, h']
        · simp [mapSet, mapGet, h']
      · by_cases h' : k₀ = k'
        · subst h'
          have hne : ¬ k = k₀ := fun hk => h hk.symm
          simp [mapSet, mapGet, h, hne]
        · simp [mapSet, mapGet, h, h', ih]

theorem mapGet_foldl_mapSet {α : Type} (es : List (String × α))
    (acc : List (String × α)) (k : String) :
    mapGet (es.foldl (fun m e => mapSet m e.1 e.2) acc) k =
      ((es.reverse.find? fun e => e.1 == k).map Prod.snd).or (mapGet acc k) := by
  induction es generalizing acc with
  | nil => simp
  | cons e rest ih =>
      rw [List.foldl_cons, ih, List.reverse_cons, List.find?_append]
      cases hf : rest.reverse.find? (fun e => e.1 == k) with
      | some x => simp
      | none =>
          by_cases h : e.1 = k
          · have hb : (e.1 == k) = true := by simp [h]
            simp [List.find?, hb, mapGet_mapSet, h]
          · have hb : (e.1 == k) = false := by simp [h]
            simp [List.find?, hb, mapGet_mapSet, h]

/-- The built registry answers lookups with the value of the last entry
carrying the key, in declaration order. -/
theorem buildRegistry_mapGet {α : Type} (es : List (String × α)) (k : String) :
    mapGet (buildRegistry es) k =
      (es.reverse.find? fun e => e.1 == k).map Prod.snd := by
  rw [buildRegistry, mapGet_foldl_mapSet]
  simp [mapGet]

theorem mapGet_eraseP {α : Type} (l : List (String × α)) (sid : String)
    (hnd : (l.map Prod.fst).Nodup) :
    mapGet (l.eraseP fun p => p.1 == sid) sid = none := by
  induction l with
  | nil => simp [mapGet]
  | cons kv rest ih =>
      obtain ⟨k₀, v₀⟩ := kv
      rw [List.map_cons, List.nodup_cons] at hnd
      by_cases h : k₀ = sid
      · subst h
        rw [List.eraseP_cons_of_pos (by simp)]
        rw [mapGet_eq_none_iff]
        intro kv hkv hk
        exact hnd.1 (List.mem_map.mpr ⟨kv, hkv, hk⟩)
      · rw [List.eraseP_cons_of_neg (by simp [h])]
        simp [mapGet, h, ih hnd.2]

theorem freshUUID_inj {m n : Nat} (h : freshUUID m = freshUUID n) : m = n := by
  have h2 := congrArg String.data h
  simp only [freshUUID] at h2
  have h3 := congrArg List.length h2
  simp at h3
  exact h3

theorem freshUUID_not_empty (n : Nat) : (freshUUID n).isEmpty = false := by
  by_contra h
  rw [Bool.not_eq_false, String.isEmpty_iff] at h
  have h2 := congrArg String.data h
  simp [freshUUID] at h2

/-! ## Router state characterizations -/

/-- The state left behind by the POST handler: unchanged except on the
initialization path, which bumps the id counter and — exactly when the
handshake completes — appends the new session. -/
theorem postMcp_state (s : RouterState) (req : HttpRequest) :
    (postMcp s req).2 =
      if sessionHeader req = none ∧ req.isInit = true then
        { transports :=
            if req.handshakeCompletes = true then
              s.transports ++
                [(freshUUID s.nextId, ⟨s.nextId, some (freshUUID s.nextId)⟩)]
            else s.transports
          nextId := s.nextId + 1 }
      else s := by
  unfold postMcp
  cases hs : sessionHeader req with
  | some sid =>
      cases hm : mapGet s.transports sid with
      | some t => by_cases hf : req.handleFails <;> simp [hm, hf]
      | none => simp [hm]
  | none =>
      by_cases hi : req.isInit <;> by_cases hh : req.handshakeCompletes <;>
        by_cases hf : req.handleFails <;> simp [hi, hh, hf]

/-- GET never changes the router state. -/
theorem getMcp_state (s : RouterState) (req : HttpRequest) :
    (getMcp s req).2 = s := by
  unfold getMcp
  cases hs : sessionHeader req with
  | none => rfl
  | some sid =>
      cases hm : mapGet s.transports sid with
      | none => simp [hm]
      | some t => simp [hm]

/-- DELETE never changes the router state itself. -/
theorem deleteMcp_state (s : RouterState) (req : HttpRequest) :
    (deleteMcp s req).2 = s := by
  unfold deleteMcp
  cases hs : sessionHeader req with
  | none => rfl
  | some sid =>
      cases hm : mapGet s.transports sid with
      | none => simp [hm]
      | some t => by_cases hf : req.handleFails <;> simp [hm, hf]

/-- The closure callback leaves the table alone when the transport has no
(truthy) session id, and otherwise erases that id's entry (a no-op when the
id is not present). -/
theorem transportOnclose_transports (s : RouterState) (t : Transport) :
    (transportOnclose s t).transports =
      match t.sessionId with
      | none => s.transports
      | some sid =>
          if sid.isEmpty then s.transports
          else s.transports.eraseP (fun p => p.1 == sid) := by
  unfold transportOnclose
  cases hsid : t.sessionId with
  | none => rfl
  | some sid =>
      by_cases he : sid.isEmpty
      · simp [he]
      · cases hm : mapGet s.transports sid with
        | some t' => simp [he, hm]
        | none =>
            have : s.transports.eraseP (fun p => p.1 == sid) = s.transports := by
              apply List.eraseP_of_forall_not
              intro kv hkv
              have := (mapGet_eq_none_iff s.transports sid).mp hm kv hkv
              simp [this]
            simp [he, hm, this]

theorem transportOnclose_nextId (s : RouterState) (t : Transport) :
    (transportOnclose s t).nextId = s.nextId := by
  unfold transportOnclose
  cases t.sessionId with
  | none => rfl
  | some sid =>
      by_cases h : !sid.isEmpty && (mapGet s.transports sid).isSome <;> simp [h]

/-- The closure callback only removes entries. -/
theorem transportOnclose_sub (s : RouterState) (t : Transport) :
    (transportOnclose s t).transports.Sublist s.transports := by
  rw [transportOnclose_transports]
  cases t.sessionId with
  | none => exact List.Sublist.refl _
  | some sid =>
      by_cases he : sid.isEmpty
      · simp [he]
      · simp only [he, if_false, Bool.false_eq_true]
        exact List.eraseP_sublist _

/-! ## Invariant preservation -/

theorem routerStep_inv (s : RouterState) (e : Event) (h : RouterInv s) :
    RouterInv (routerStep s e) := by
  cases e with
  | get req => rw [routerStep, getMcp_state]; exact h
  | del req => rw [routerStep, deleteMcp_state]; exact h
  | post req =>
      rw [routerStep, postMcp_state]
      split
      · split
        · constructor
          · intro kv hkv
            rcases List.mem_append.mp hkv with hkv | hkv
            · obtain ⟨m, hm, hk⟩ := h.1 kv hkv
              exact ⟨m, Nat.lt_succ_of_lt hm, hk⟩
            · rw [List.mem_singleton] at hkv
              subst hkv
              exact ⟨s.nextId, Nat.lt_succ_self _, rfl⟩
          · rw [List.map_append]
            apply List.Nodup.append h.2 (by simp)
            intro a ha hb
            simp only [List.map_cons, List.map_nil, List.mem_singleton] at hb
            subst hb
            obtain ⟨kv, hkv, hk⟩ := List.mem_map.mp ha
            obtain ⟨m, hm, hk2⟩ := h.1 kv hkv
            have := freshUUID_inj (hk2.symm.trans hk)
            omega
        · exact ⟨fun kv hkv => by
            obtain ⟨m, hm, hk⟩ := h.1 kv hkv
            exact ⟨m, Nat.lt_succ_of_lt hm, hk⟩, h.2⟩
      · exact h
  | close t =>
      have hsub := transportOnclose_sub s t
      constructor
      · intro kv hkv
        obtain ⟨m, hm, hk⟩ := h.1 kv (hsub.subset hkv)
        rw [routerStep, transportOnclose_nextId]
        exact ⟨m, hm, hk⟩
      · exact List.Nodup.sublist (hsub.map Prod.fst) h.2

theorem routerStep_closedOut (sid : String) (s : RouterState) (e : Event)
    (h : ClosedOut sid s) : ClosedOut sid (routerStep s e) := by
  obtain ⟨hnone, m, hm, hk⟩ := h
  cases e with
  | get req => rw [routerStep, getMcp_state]; exact ⟨hnone, m, hm, hk⟩
  | del req => rw [routerStep, deleteMcp_state]; exact ⟨hnone, m, hm, hk⟩
  | post req =>
      rw [routerStep, postMcp_state]
      split
      · split
        · refine ⟨?_, m, Nat.lt_succ_of_lt hm, hk⟩
          rw [mapGet_append, hnone]
          have hne : freshUUID s.nextId ≠ sid := by
            intro hcontra
            have := freshUUID_inj (hcontra.trans hk)
            omega
          simp [mapGet, hne]
        · exact ⟨hnone, m, Nat.lt_succ_of_lt hm, hk⟩
      · exact ⟨hnone, m, hm, hk⟩
  | close t =>
      have hsub := transportOnclose_sub s t
      refine ⟨?_, m, by rw [routerStep, transportOnclose_nextId]; omega, hk⟩
      rw [mapGet_eq_none_iff]
      intro kv hkv
      exact (mapGet_eq_none_iff s.transports sid).mp hnone kv (hsub.subset hkv)

theorem routerRun_closedOut (sid : String) (s : RouterState) (es : List Event)
    (h : ClosedOut sid s) : ClosedOut sid (routerRun s es) := by
  induction es generalizing s with
  | nil => exact h
  | cons e rest ih => exact ih _ (routerStep_closedOut sid s e h)

/-- Right after the closure callback of a transport carrying a (truthy)
session id, that id is gone from the table. -/
theorem transportOnclose_removes (s : RouterState) (t : Transport) (sid : String)
    (hnd : (s.transports.map Prod.fst).Nodup) (hsid : t.sessionId = some sid)
    (hne : sid.isEmpty = false) :
    mapGet (transportOnclose s t).transports sid = none := by
  rw [transportOnclose_transports, hsid]
  simp only [hne, Bool.false_eq_true, if_false]
  exact mapGet_eraseP s.transports sid hnd

/-! ## Claim theorems -/

/-- Claim C1, counterexample: calling the unknown tool `nope` does return an
`isError: true` envelope, but its text is `Error: Unknown tool: nope` — the
thrown message with an `Error: ` prefix — not the bare `Unknown tool: nope`
the claim states. -/
theorem callTool_unknown_text_counterexample :
    (callTool (templateTools fmtExample) "nope" (Json.obj [])).isError = true ∧
    (callTool (templateTools fmtExample) "nope" (Json.obj [])).content =
      [⟨"text", "Error: Unknown tool: nope"⟩] ∧
    (⟨"text", "Error: Unknown tool: nope"⟩ : TextContent) ≠
      ⟨"text", "Unknown tool: nope"⟩ :=
  ⟨rfl, rfl, by decide⟩

/-- Claim C1, amended: for every tool name not present in the tool registry
and every arguments value, call-tool returns a result envelope with
`isError: true` whose single text message is `Error: Unknown tool: <name>`
(the thrown `Unknown tool: <name>` message wrapped by the catch-all with an
`Error: ` marker); the dispatch is a total function, so no exception
propagates to the protocol runtime from a tool call. -/
theorem callTool_unknown_tool (tools : List Tool) (name : String) (args : Json)
    (h : mapGet (toolRegistry tools) name = none) :
    callTool tools name args =
      { content := [⟨"text", "Error: Unknown tool: " ++ name⟩],
        isError := true } := by
  unfold callTool
  rw [h]
  show ({ content := [⟨"text", "Error: " ++ ("Unknown tool: " ++ name)⟩],
          isError := true } : CallToolResult) =
    { content := [⟨"text", "Error: Unknown tool: " ++ name⟩], isError := true }
  rw [← String.append_assoc]
  rfl

/-- Witness for the amended C1 theorem at the template's own tool list. -/
theorem callTool_unknown_tool_witness :
    callTool (templateTools fmtExample) "nope" (Json.obj []) =
      { content := [⟨"text", "Error: Unknown tool: " ++ "nope"⟩],
        isError := true } :=
  callTool_unknown_tool (templateTools fmtExample) "nope" (Json.obj []) rfl

/-- Claim C2: for every uri not present in the resource registry,
read-resource throws `Unknown resource: <uri>` — the error propagates to the
protocol runtime (there is no local catch on this path, unlike call-tool) —
and it never returns a result, in particular never a silent empty one. -/
theorem readResource_unknown (resources : List Resource) (uri : String)
    (h : mapGet (resourceRegistry resources) uri = none) :
    readResource resources uri = .error ("Unknown resource: " ++ uri) ∧
      ∀ r : ReadResourceResult, readResource resources uri ≠ .ok r := by
  unfold readResource
  rw [h]
  exact ⟨rfl, fun r hr => Except.noConfusion hr⟩

/-- Witness for C2 at the template's resource list and a fresh uri. -/
theorem readResource_unknown_witness :
    readResource templateResources "mcp://missing" =
      .error ("Unknown resource: " ++ "mcp://missing") ∧
    ∀ r : ReadResourceResult,
      readResource templateResources "mcp://missing" ≠ .ok r :=
  readResource_unknown templateResources "mcp://missing" rfl

/-- Claim C3: a POST to `/mcp` whose `Mcp-Session-Id` header is absent (or
names no SessionTable entry) and whose body is not an initialization request
is answered with status 400 and a JSON-RPC-shaped error body with code
-32000 and the exact bad-request message, and the router state — hence the
SessionTable, with no transport created — is returned unchanged. -/
theorem postMcp_bad_request (s : RouterState) (req : HttpRequest)
    (hsid : ∀ sid, sessionHeader req = some sid → mapGet s.transports sid = none)
    (hinit : req.isInit = false) :
    postMcp s req =
      (McpResponse.jsonRpcError 400 (-32000)
        "Bad Request: No valid session ID provided or not an initialization request",
       s) := by
  unfold postMcp
  cases hs : sessionHeader req with
  | none => simp [hinit]
  | some sid => simp [hsid sid hs]

/-- Witness for C3: a POST with no header and a non-initialization body. -/
theorem postMcp_bad_request_witness :
    postMcp ⟨[], 0⟩ ⟨none, false, false, false⟩ =
      (McpResponse.jsonRpcError 400 (-32000)
        "Bad Request: No valid session ID provided or not an initialization request",
       ⟨[], 0⟩) :=
  postMcp_bad_request ⟨[], 0⟩ ⟨none, false, false, false⟩
    (fun sid h => by simp [sessionHeader] at h) rfl

/-- Claim C4: once a session's transport fires `onclose`, that session id is
removed from the SessionTable, and in every state reachable by any further
sequence of events it stays absent — a GET or a DELETE carrying that id is
answered 400. The hypotheses say the state satisfies the router invariant
and the id was produced by the session-id generator, which is how every
table key arises (`RouterInv`); there is no transition out of closed. -/
theorem session_closed_stays_closed (s : RouterState) (t : Transport)
    (sid : String) (hinv : RouterInv s) (hsid : t.sessionId = some sid)
    (hgen : ∃ m, m < s.nextId ∧ sid = freshUUID m) (es : List Event) :
    mapGet (routerRun (transportOnclose s t) es).transports sid = none ∧
    getMcp (routerRun (transportOnclose s t) es) (plainRequest sid) =
      (McpResponse.textError 400 "Invalid or missing session ID",
       routerRun (transportOnclose s t) es) ∧
    deleteMcp (routerRun (transportOnclose s t) es) (plainRequest sid) =
      (McpResponse.textError 400 "Invalid or missing session ID",
       routerRun (transportOnclose s t) es) := by
  obtain ⟨m, hm, rfl⟩ := hgen
  have hne : (freshUUID m).isEmpty = false := freshUUID_not_empty m
  have h0 : ClosedOut (freshUUID m) (transportOnclose s t) := by
    refine ⟨transportOnclose_removes s t _ hinv.2 hsid hne,
            m, ?_, rfl⟩
    rw [transportOnclose_nextId]
    exact hm
  have h1 : ClosedOut (freshUUID m) (routerRun (transportOnclose s t) es) :=
    routerRun_closedOut _ _ es h0
  refine ⟨h1.1, ?_, ?_⟩
  · unfold getMcp
    simp [sessionHeader, plainRequest, hne, h1.1]
  · unfold deleteMcp
    simp [sessionHeader, plainRequest, hne, h1.1]

/-- Witness for C4: initialize one session, close it, then run two more
events; GET and DELETE with the dead id answer 400. -/
theorem session_closed_stays_closed_witness :
    mapGet (routerRun
      (transportOnclose ⟨[(freshUUID 0, ⟨0, some (freshUUID 0)⟩)], 1⟩
        ⟨0, some (freshUUID 0)⟩)
      [Event.post ⟨none, true, true, false⟩,
       Event.get (plainRequest (freshUUID 0))]).transports (freshUUID 0) = none ∧
    getMcp (routerRun
      (transportOnclose ⟨[(freshUUID 0, ⟨0, some (freshUUID 0)⟩)], 1⟩
        ⟨0, some (freshUUID 0)⟩)
      [Event.post ⟨none, true, true, false⟩,
       Event.get (plainRequest (freshUUID 0))]) (plainRequest (freshUUID 0)) =
      (McpResponse.textError 400 "Invalid or missing session ID",
       routerRun
        (transportOnclose ⟨[(freshUUID 0, ⟨0, some (freshUUID 0)⟩)], 1⟩
          ⟨0, some (freshUUID 0)⟩)
        [Event.post ⟨none, true, true, false⟩,
         Event.get (plainRequest (freshUUID 0))]) ∧
    deleteMcp (routerRun
      (transportOnclose ⟨[(freshUUID 0, ⟨0, some (freshUUID 0)⟩)], 1⟩
        ⟨0, some (freshUUID 0)⟩)
      [Event.post ⟨none, true, true, false⟩,
       Event.get (plainRequest (freshUUID 0))]) (plainRequest (freshUUID 0)) =
      (McpResponse.textError 400 "Invalid or missing session ID",
       routerRun
        (transportOnclose ⟨[(freshUUID 0, ⟨0, some (freshUUID 0)⟩)], 1⟩
          ⟨0, some (freshUUID 0)⟩)
        [Event.post ⟨none, true, true, false⟩,
         Event.get (plainRequest (freshUUID 0))]) :=
  session_closed_stays_closed ⟨[(freshUUID 0, ⟨0, some (freshUUID 0)⟩)], 1⟩
    ⟨0, some (freshUUID 0)⟩ (freshUUID 0)
    ⟨fun kv hkv => by
        simp only [List.mem_singleton] at hkv
        subst hkv
        exact ⟨0, Nat.one_pos, rfl⟩,
      by simp⟩
    rfl ⟨0, Nat.one_pos, rfl⟩
    [Event.post ⟨none, true, true, false⟩,
     Event.get (plainRequest (freshUUID 0))]

/-- Claim C5: for every string m, the echo tool handler invoked with
an object carrying the field `message` set to m succeeds with a single text content item reading
exactly `Echo: ` followed by m; in particular echoing the message hi
yields exactly `Echo: hi`. -/
theorem echo_exact (m : String) :
    echoTool.handler (Json.obj [("message", Json.str m)]) =
      .ok { content := [⟨"text", "Echo: " ++ m⟩], isError := false } ∧
    echoTool.handler (Json.obj [("message", Json.str "hi")]) =
      .ok { content := [⟨"text", "Echo: hi"⟩], isError := false } :=
  ⟨rfl, rfl⟩

/-- Claim C6, counterexample: supplying the timezone string `""` does not
produce a text prefixed `Current time in : ` — the JavaScript `||` default
kicks in on the falsy empty string and the handler answers with the UTC
text instead, refuting the claim's unrestricted "with a timezone string t
supplied" clause. -/
theorem getTime_empty_tz_counterexample :
    (getTimeTool fmtExample).handler (Json.obj [("timezone", Json.str "")]) =
      .ok { content := [⟨"text",
              "Current time in UTC: Saturday, October 11, 2026 at 12:00:00 AM UTC"⟩],
            isError := false } ∧
    ¬ ("Current time in : ".data <+:
        "Current time in UTC: Saturday, October 11, 2026 at 12:00:00 AM UTC".data) :=
  ⟨rfl, by decide⟩

/-- Claim C6, amended: with no timezone argument the handler uses `UTC` and
returns `Current time in UTC: <formatted date-time>`, where the date-time
part is exactly the formatter's output (non-empty whenever the environment
formatter's is); with a NON-EMPTY timezone string t supplied (and the
formatter succeeding on it) the text is `Current time in <t>: ` followed by
the formatted time — an empty t falls back to `UTC` exactly like an absent
one, because the source computes `parsed.data.timezone || "UTC"`. -/
theorem getTime_handler_amended (fmt : String → Except String String)
    (fields : List (String × Json)) (s t : String) :
    (mapGet fields "timezone" = none → fmt "UTC" = .ok s →
      (getTimeTool fmt).handler (Json.obj fields) =
        .ok { content := [⟨"text", "Current time in UTC: " ++ s⟩],
              isError := false }) ∧
    (t.isEmpty = false → fmt t = .ok s →
      (getTimeTool fmt).handler (Json.obj [("timezone", Json.str t)]) =
        .ok { content := [⟨"text", "Current time in " ++ t ++ ": " ++ s⟩],
              isError := false }) := by
  constructor
  · intro hnone hfmt
    simp only [getTimeTool, GetTimeToolSchema.safeParse, hnone]
    simp [jsOrDefault, hfmt]
  · intro ht hfmt
    simp only [getTimeTool, GetTimeToolSchema.safeParse, mapGet]
    simp [jsOrDefault, ht, hfmt]

/-- Witness for the amended C6 theorem: the no-argument call and a call with
timezone `America/New_York`, under the concrete formatter fixture. -/
theorem getTime_handler_amended_witness :
    (getTimeTool fmtExample).handler (Json.obj []) =
      .ok { content := [⟨"text", "Current time in UTC: " ++
              "Saturday, October 11, 2026 at 12:00:00 AM UTC"⟩],
            isError := false } ∧
    (getTimeTool fmtExample).handler
        (Json.obj [("timezone", Json.str "America/New_York")]) =
      .ok { content := [⟨"text", "Current time in " ++ "America/New_York" ++ ": " ++
              "Saturday, October 11, 2026 at 12:00:00 AM America/New_York"⟩],
            isError := false } :=
  ⟨(getTime_handler_amended fmtExample []
      "Saturday, October 11, 2026 at 12:00:00 AM UTC" "x").1 rfl rfl,
   (getTime_handler_amended fmtExample []
      "Saturday, October 11, 2026 at 12:00:00 AM America/New_York"
      "America/New_York").2 rfl rfl⟩

/-- Claim C7: when an input sequence of definitions contains two entries
sharing a key, the registry builder performs no uniqueness validation — the
build is total and the later entry silently overwrites the earlier: looking
the key up in the built registry yields the last entry with that key in
declaration order (the first hit in the reversed sequence). This covers the
tool registry and the resource registry alike, both built by
`buildRegistry`. -/
theorem registry_last_wins {α : Type} (es : List (String × α)) (k : String)
    (hdup : 2 ≤ (es.filter fun e => e.1 == k).length) :
    mapGet (buildRegistry es) k =
      (es.reverse.find? fun e => e.1 == k).map Prod.snd :=
  buildRegistry_mapGet es k

/-- Witness for C7: two entries named `dup`; the lookup answers the later
value. -/
theorem registry_last_wins_witness :
    2 ≤ (([("dup", 1), ("dup", 2)] : List (String × Nat)).filter
          fun e => e.1 == "dup").length ∧
    mapGet (buildRegistry [("dup", 1), ("dup", 2)]) "dup" =
      (([("dup", 1), ("dup", 2)] : List (String × Nat)).reverse.find?
          fun e => e.1 == "dup").map Prod.snd ∧
    mapGet (buildRegistry [("dup", 1), ("dup", 2)]) "dup" = some 2 :=
  ⟨by decide, registry_last_wins [("dup", 1), ("dup", 2)] "dup" (by decide), rfl⟩

/-- Claim C8: a GET or a DELETE on `/mcp` whose `Mcp-Session-Id` header is
absent (or falsy) or names no SessionTable entry is answered 400 with body
`Invalid or missing session ID` for both verbs, the state returned unchanged
and no transport delegated to. -/
theorem getDeleteMcp_unknown_session (s : RouterState) (req : HttpRequest)
    (h : ∀ sid, sessionHeader req = some sid → mapGet s.transports sid = none) :
    getMcp s req = (McpResponse.textError 400 "Invalid or missing session ID", s) ∧
    deleteMcp s req =
      (McpResponse.textError 400 "Invalid or missing session ID", s) := by
  constructor
  · unfold getMcp
    cases hs : sessionHeader req with
    | none => rfl
    | some sid => simp [h sid hs]
  · unfold deleteMcp
    cases hs : sessionHeader req with
    | none => rfl
    | some sid => simp [h sid hs]

/-- Witness for C8: a GET/DELETE with a session id unknown to an empty
table. -/
theorem getDeleteMcp_unknown_session_witness :
    getMcp ⟨[], 0⟩ (plainRequest "ghost") =
      (McpResponse.textError 400 "Invalid or missing session ID", ⟨[], 0⟩) ∧
    deleteMcp ⟨[], 0⟩ (plainRequest "ghost") =
      (McpResponse.textError 400 "Invalid or missing session ID", ⟨[], 0⟩) :=
  getDeleteMcp_unknown_session ⟨[], 0⟩ (plainRequest "ghost")
    (fun sid _ => rfl)

/-- Claim C9: the SessionTable is mutated only by the POST-initialization
path's session-initialized callback (one insertion) and the
transport-closure callback (one removal). GET and DELETE leave the whole
router state unchanged; a POST with a (truthy) header, a non-initialization
POST, and an initialization POST whose handshake does not complete (the 400
and 500 error branches included) leave the table unchanged; the completed
initialization appends exactly the new pair; and the closure callback at
most erases its own id's entry. -/
theorem sessionTable_frame (s : RouterState) (req : HttpRequest) (t : Transport) :
    (getMcp s req).2 = s ∧
    (deleteMcp s req).2 = s ∧
    (∀ sid, sessionHeader req = some sid → (postMcp s req).2 = s) ∧
    (req.isInit = false → (postMcp s req).2 = s) ∧
    (req.handshakeCompletes = false →
      ((postMcp s req).2).transports = s.transports) ∧
    (sessionHeader req = none → req.isInit = true → req.handshakeCompletes = true →
      ((postMcp s req).2).transports =
        s.transports ++ [(freshUUID s.nextId, ⟨s.nextId, some (freshUUID s.nextId)⟩)]) ∧
    ((transportOnclose s t).transports =
      match t.sessionId with
      | none => s.transports
      | some sid =>
          if sid.isEmpty then s.transports
          else s.transports.eraseP (fun p => p.1 == sid)) := by
  refine ⟨getMcp_state s req, deleteMcp_state s req, ?_, ?_, ?_, ?_,
          transportOnclose_transports s t⟩
  · intro sid hs
    rw [postMcp_state]
    simp [hs]
  · intro hi
    rw [postMcp_state]
    simp [hi]
  · intro hh
    rw [postMcp_state]
    split
    · simp [hh]
    · rfl
  · intro h1 h2 h3
    rw [postMcp_state]
    simp [h1, h2, h3]

/-- Witness for C9: the completed initialization inserts exactly one pair,
and a GET leaves a concrete state untouched. -/
theorem sessionTable_frame_witness :
    ((postMcp ⟨[], 5⟩ ⟨none, true, true, false⟩).2).transports =
      ([] : List (String × Transport)) ++
        [(freshUUID 5, ⟨5, some (freshUUID 5)⟩)] ∧
    (getMcp ⟨[], 5⟩ ⟨some "x", false, false, false⟩).2 = ⟨[], 5⟩ :=
  ⟨(sessionTable_frame ⟨[], 5⟩ ⟨none, true, true, false⟩ ⟨0, none⟩).2.2.2.2.2.1
      rfl rfl rfl,
   (sessionTable_frame ⟨[], 5⟩ ⟨some "x", false, false, false⟩ ⟨0, none⟩).1⟩

/-- Claim C10: whenever the arguments object carries a string field
`message`, the echo handler succeeds with `Echo: <message>` even in the
presence of arbitrary additional properties — the zod object schema strips
unknown keys instead of rejecting them, so extra fields never produce a
validation error at the tool interface. -/
theorem echo_ignores_extra_fields (fields : List (String × Json)) (m : String)
    (h : mapGet fields "message" = some (Json.str m)) :
    echoTool.handler (Json.obj fields) =
      .ok { content := [⟨"text", "Echo: " ++ m⟩], isError := false } := by
  simp [echoTool, EchoToolSchema.safeParse, h]

/-- Witness for C10: a `message` accompanied by two unexpected fields. -/
theorem echo_ignores_extra_fields_witness :
    echoTool.handler (Json.obj
        [("message", Json.str "hi"), ("extra", Json.num 42),
         ("flag", Json.bool true)]) =
      .ok { content := [⟨"text", "Echo: " ++ "hi"⟩], isError := false } :=
  echo_ignores_extra_fields
    [("message", Json.str "hi"), ("extra", Json.num 42), ("flag", Json.bool true)]
    "hi" rfl
